import Mathlib

/-!
Shallow embedding of the research-agent orchestration layer of the
gemini-fullstack-langgraph backend (src/backend/src/agent), together with
theorems checking the natural-language specification against the code.

Python strings are modelled as Lean `String`; Python `None`-able state keys
as `Option`; machine integers as `Int`/`Nat` (no overflow is relevant in the
source); the external LLM "Generator" and retrieval calls are modelled as
oracle inputs, and the embedded node functions record whether such a call
was made on the executed path.
-/

set_option maxHeartbeats 1000000

/-- Embeds `state.ReportSection` (the fields the orchestration layer uses). -/
structure ReportSection where
  name : String
  description : String
  requires_research : Bool
  content : String := ""
  word_count_target : Nat := 1000
  completed : Bool := false
deriving DecidableEq, Repr

/-- Embeds `state.ReportPlan`. -/
structure ReportPlan where
  title : String
  abstract : String
  sections : List ReportSection
  total_word_count_target : Nat
deriving DecidableEq, Repr

/-- ASCII lowercasing of one character, modelling Python `str.lower` on the
alphabets the agent's keyword lists use (CJK characters are fixed points). -/
def lowerChar (c : Char) : Char :=
  if 65 ≤ c.toNat ∧ c.toNat ≤ 90 then Char.ofNat (c.toNat + 32) else c

/-- Python `s.lower()`. -/
def pyLower (s : String) : String := String.mk (s.toList.map lowerChar)

/-- Characters removed by Python `str.strip()` (the ASCII whitespace set). -/
def isPyWhitespaceChar (c : Char) : Bool :=
  c = ' ' || c = '\t' || c = '\n' || c = '\r' || c = '\x0b' || c = '\x0c'

/-- Python `str.strip()` on a character list. -/
def pyStripChars (l : List Char) : List Char :=
  ((l.dropWhile isPyWhitespaceChar).reverse.dropWhile isPyWhitespaceChar).reverse

/-- Python `s.strip()`. -/
def pyStrip (s : String) : String := String.mk (pyStripChars s.toList)

/-- Python `s.lower().strip()`: the query normalization that
`generate_section_queries` uses for keys of the executed-query set. -/
def pyNorm (s : String) : String := pyStrip (pyLower s)

/-- Python `small in big` on character lists: `startsWithChars l p` is true
when `p` is a prefix of `l`. -/
def startsWithChars : List Char → List Char → Bool
  | _, [] => true
  | [], _ :: _ => false
  | c :: cs, p :: ps => c = p && startsWithChars cs ps

/-- Python substring containment `needle in hay`. -/
def containsSub : List Char → List Char → Bool
  | [], needle => needle.isEmpty
  | c :: t, needle => startsWithChars (c :: t) needle || containsSub t needle

/-- Python `needle in hay` on strings. -/
def pyInStr (needle hay : String) : Bool := containsSub hay.toList needle.toList

/-- Reflection-routing state read by `graph.evaluate_research`
(`is_sufficient`, `research_loop_count`, `max_research_loops`; a `none`
models a missing or `None` entry, matching the `state.get` defaults). -/
structure EvalResearchState where
  is_sufficient : Option Bool
  research_loop_count : Option Int
  max_research_loops : Option Int
deriving Repr

/-- Embeds `graph.evaluate_research` (graph.py lines 339-354):
`max_research_loops` comes from the state when present, else from the
configuration; routing returns `finalize_answer` when the model reported
sufficiency or the loop counter has reached the ceiling. -/
def evaluate_research (st : EvalResearchState) (cfgMaxResearchLoops : Int) : String :=
  let maxResearchLoops : Option Int :=
    match st.max_research_loops with
    | some v => some v
    | none => some cfgMaxResearchLoops
  let researchLoopCount : Int := st.research_loop_count.getD 0
  let maxLoops : Int := maxResearchLoops.getD 3
  if st.is_sufficient.getD false || (researchLoopCount ≥ maxLoops) then "finalize_answer"
  else "continue_research"

/-- One run of the outer research loop against an adversarial Generator that
always reports `is_sufficient = false`: each round `graph.reflection`
increments `research_loop_count` unconditionally, then `evaluate_research`
routes; the run stops at `finalize_answer` and returns the final counter.
`fuel` is a structural-recursion bound only. -/
def researchLoopRun (maxLoops : Int) : Nat → Int → Int
  | 0, count => count
  | fuel + 1, count =>
    if evaluate_research ⟨some false, some (count + 1), some maxLoops⟩ 0 = "finalize_answer" then
      count + 1
    else
      researchLoopRun maxLoops fuel (count + 1)

/-- Section-research routing state read by
`long_report_nodes.evaluate_section_research`, with the `state.get` defaults
modelled by `Option` (`section_is_sufficient` defaults to `True`,
`section_research_count` to `0`, `max_section_research_loops` to `1`). -/
structure SectionEvalState where
  section_is_sufficient : Option Bool
  section_follow_up_queries : Option (List String)
  current_section : Option ReportSection
  section_research_count : Option Int
  max_section_research_loops : Option Int
deriving Repr

/-- Embeds `long_report_nodes.evaluate_section_research` (lines 716-756):
without a current section it routes to `write_section_content`; otherwise
`max_loops = min(max_section_research_loops or 1, 1)` and the node
terminates the sub-loop when the verdict is sufficient, no follow-up
queries remain, or the counter reached `max_loops` or the hard limit 1. -/
def evaluate_section_research (st : SectionEvalState) : String :=
  let sufficient := st.section_is_sufficient.getD true
  let followUps := st.section_follow_up_queries.getD []
  let count : Int := st.section_research_count.getD 0
  match st.current_section with
  | none => "write_section_content"
  | some _ =>
    let msl : Int :=
      match st.max_section_research_loops with
      | none => 1
      | some v => if v = 0 then 1 else v
    let maxLoops : Int := min msl 1
    let shouldTerminate :=
      sufficient || followUps.isEmpty || (count ≥ maxLoops) || (count ≥ 1) ||
        (followUps.length = 0)
    if shouldTerminate then "write_section_content"
    else "continue_section_research"

/-- Characters stripped from the front of a line by
`line.lstrip(" 0123456789.-• ")` in `graph.generate_query`'s heuristic
line parser. -/
def numberingChars : List Char := ['0','1','2','3','4','5','6','7','8','9','.','-','•',' ']

/-- One line of the heuristic fallback parser in `graph.generate_query`
(lines 131-137): strip the line, skip comment/JSON-looking lines, strip
numbering and bullets, and keep the result when it is non-empty and
contains no double quote. -/
def parseQueryLine (line : String) : Option String :=
  let l := pyStrip line
  if l = "" || startsWithChars l.toList "#".toList ||
      startsWithChars l.toList "//".toList ||
      startsWithChars l.toList "\x7b".toList ||
      startsWithChars l.toList "\x7d".toList then
    none
  else
    let l2 := String.mk (l.toList.dropWhile (fun c => numberingChars.contains c))
    if l2 ≠ "" && !(l2.toList.contains '"') then some l2 else none

/-- The value found under the `query` key of the Generator's parsed JSON
response (a list, a string, or some other JSON value). -/
inductive QueryFieldValue
  | strList (l : List String)
  | strVal (s : String)
  | otherVal
deriving Repr

/-- Outcome of `json.loads` on the Generator's response in
`graph.generate_query`: a dict (with or without usable `query` field), a
non-dict JSON value, or a parse exception. -/
inductive QueryParseOutcome
  | parsedDict (queryField : Option QueryFieldValue)
  | parsedNonDict
  | parseFailed
deriving Repr

/-- The query-extraction phase of `graph.generate_query` (lines 102-137):
on a successful structured parse take the `query` field (list entries are
kept when truthy, then stripped); on a parse exception fall back to the
heuristic line parser over the content's stripped lines. -/
def extractQueries (outcome : QueryParseOutcome) (contentLines : List String) : List String :=
  match outcome with
  | .parsedDict (some (.strList l)) => (l.filter (fun q => q ≠ "")).map pyStrip
  | .parsedDict (some (.strVal s)) => [pyStrip s]
  | .parsedDict (some .otherVal) => []
  | .parsedDict none => []
  | .parsedNonDict => []
  | .parseFailed => contentLines.filterMap parseQueryLine

/-- Embeds `graph.generate_query` (lines 102-145) from the Generator
response onward: extract queries, fall back to the research topic when none
were extracted, and truncate to `initial_search_query_count`. -/
def generate_query (outcome : QueryParseOutcome) (contentLines : List String)
    (researchTopic : String) (initialSearchQueryCount : Nat) : List String :=
  let queries := extractQueries outcome contentLines
  let queries := if queries = [] then [researchTopic] else queries
  queries.take initialSearchQueryCount

/-- Embeds `rag_nodes.rag_fallback_to_web` (rag_nodes.py lines 118-141):
route to web research exactly when the RAG step returned no documents and
`rag_config.enable_fallback` is set; otherwise proceed to reflection. -/
def rag_fallback_to_web (ragDocuments : List String) (enableFallback : Bool) : String :=
  if ragDocuments.isEmpty && enableFallback then "web_research"
  else if !ragDocuments.isEmpty then "reflection"
  else "reflection"

/-- The long-report keyword list of `detect_long_report_request`
(long_report_nodes.py lines 45-49 and enhanced_long_report_nodes.py
lines 54-58). -/
def long_report_keywords : List String :=
  ["详细报告", "研究报告", "深度分析", "全面报告", "长篇报告",
   "detailed report", "research report", "comprehensive analysis",
   "in-depth report", "long report", "万字", "字的报告"]

/-- The word-count indicator list of `detect_long_report_request`
(long_report_nodes.py line 52). -/
def word_count_indicators : List String := ["万字", "千字", "words", "字"]

/-- The `is_long_report` field computed by `detect_long_report_request`
(long_report_nodes.py lines 28-84, identical in
enhanced_long_report_nodes.py lines 37-95): false when there is no message;
otherwise a keyword match against the lowercased latest message or a
word-count indicator match against the raw latest message. -/
def detect_long_report_is_long (messages : List String) : Bool :=
  match messages.getLast? with
  | none => false
  | some content =>
    let lowered := pyLower content
    (long_report_keywords.any (fun kw => pyInStr kw lowered)) ||
      (word_count_indicators.any (fun ind => pyInStr ind content))

/-- The fallback plan built by `long_report_nodes.generate_report_plan`
(lines 181-218) when structured parsing of the planner response fails. -/
def fallbackReportPlan (researchTopic : String) (targetWordCount : Nat) : ReportPlan :=
  { title := researchTopic ++ "研究报告"
    abstract := "关于" ++ researchTopic ++ "的详细研究报告"
    sections :=
      [{ name := "引言", description := "介绍研究背景和目标",
         requires_research := true, word_count_target := targetWordCount / 6 },
       { name := "文献综述", description := "相关研究和理论基础",
         requires_research := true, word_count_target := targetWordCount / 4 },
       { name := "核心分析", description := "主要内容分析",
         requires_research := true, word_count_target := targetWordCount / 3 },
       { name := "结论", description := "总结和建议",
         requires_research := false, word_count_target := targetWordCount / 6 }]
    total_word_count_target := targetWordCount }

/-- The fallback plan built by
`enhanced_long_report_nodes.enhanced_generate_report_plan` (lines 207-257)
when structured parsing fails; `safe_target_count = target_word_count or
10000` is the caller's responsibility and is passed in here. -/
def enhancedFallbackReportPlan (researchTopic : String) (safeTargetCount : Nat) : ReportPlan :=
  { title := researchTopic ++ "研究报告"
    abstract := "本报告针对" ++ researchTopic ++ "进行深入研究和分析。"
    sections :=
      [{ name := "引言", description := "介绍研究背景和目标",
         requires_research := true, word_count_target := safeTargetCount / 5 },
       { name := "文献综述", description := "相关研究和理论基础",
         requires_research := true, word_count_target := safeTargetCount * 3 / 10 },
       { name := "核心分析", description := "主要内容分析",
         requires_research := true, word_count_target := safeTargetCount * 35 / 100 },
       { name := "总结", description := "总结要点和结论",
         requires_research := false, word_count_target := safeTargetCount * 15 / 100 }]
    total_word_count_target := safeTargetCount }

/-- Sum of the per-section word-count targets of a plan. -/
def planSectionTargetSum (plan : ReportPlan) : Nat :=
  (plan.sections.map (fun sec => sec.word_count_target)).sum

/-- The Python dict comprehension
`section_content_map = \x7bs.name: s.content for s in completed_sections\x7d`
of `compile_final_long_report`: later entries overwrite earlier ones, so the
lookup takes the last completed section with the given name. -/
def sectionContentLookup (completed : List ReportSection) (name : String) : Option String :=
  (completed.reverse.find? (fun sec => sec.name == name)).map (fun sec => sec.content)

/-- The table-of-contents lines of `compile_final_long_report`
(`for i, section in enumerate(report_plan.sections, 1)`). -/
def tocLines : Nat → List ReportSection → List String
  | _, [] => []
  | i, sec :: rest => (toString i ++ ". " ++ sec.name) :: tocLines (i + 1) rest

/-- One numbered section content block of `compile_final_long_report`
(line 476-478): the block carries the content found under the section's
name, or the explicit placeholder naming the section. -/
def sectionBlock (completed : List ReportSection) (i : Nat) (sec : ReportSection) : String :=
  let content := (sectionContentLookup completed sec.name).getD
    ("[" ++ sec.name ++ "章节内容缺失]")
  "## " ++ toString i ++ ". " ++ sec.name ++ "\n\n" ++ content ++ "\n"

/-- The section content blocks of `compile_final_long_report`, one per
planned section, in plan order. -/
def sectionBlocks (completed : List ReportSection) : Nat → List ReportSection → List String
  | _, [] => []
  | i, sec :: rest => sectionBlock completed i sec :: sectionBlocks completed (i + 1) rest

/-- The `report_parts` list built by `compile_final_long_report`
(long_report_nodes.py lines 462-480). -/
def compileLongReportParts (plan : ReportPlan) (completed : List ReportSection) : List String :=
  ["# " ++ plan.title, "\n## 摘要\n\n" ++ plan.abstract ++ "\n", "## 目录\n"] ++
    tocLines 1 plan.sections ++ [""] ++ sectionBlocks completed 1 plan.sections

/-- Python `len(s.replace(" ", ""))`: the character-count metric the
compilers report. -/
def pyLenNoSpaces (s : String) : Nat := (s.toList.filter (fun c => c ≠ ' ')).length

/-- Result of a compile node: either the explicit failure update or the
final report update. -/
inductive CompileResult
  | failure (msg : String)
  | success (finalReport : String) (totalWordCount : Nat)
deriving DecidableEq, Repr

/-- Embeds `long_report_nodes.compile_final_long_report` (lines 451-490):
with no plan or no completed section it returns the explicit failure
message; otherwise it joins the report parts and reports the aggregate
length. -/
def compile_final_long_report (plan : Option ReportPlan)
    (completed : List ReportSection) : CompileResult :=
  match plan with
  | none => .failure "报告生成失败：缺少必要信息"
  | some p =>
    if completed.isEmpty then .failure "报告生成失败：缺少必要信息"
    else
      let finalReport := String.intercalate "\n" (compileLongReportParts p completed)
      .success finalReport (pyLenNoSpaces finalReport)

/-- Result of `compile_enhanced_final_report`: the failure update (an
error message, no report) or the final report. -/
inductive EnhancedCompileResult
  | failure (message : String)
  | success (finalReport : String)
deriving DecidableEq, Repr

/-- The `final_report_parts` list of `compile_enhanced_final_report`
(enhanced_long_report_nodes.py lines 560-571): title, abstract, then the
content of each completed section that has content — planned sections
missing from the completed list contribute nothing. -/
def enhancedReportParts (plan : ReportPlan) (completed : List ReportSection) : List String :=
  ["# " ++ plan.title ++ "\n", "## 摘要\n" ++ plan.abstract ++ "\n"] ++
    (completed.filter (fun sec => sec.content ≠ "")).map (fun sec => sec.content)

/-- Embeds `enhanced_long_report_nodes.compile_enhanced_final_report`
(lines 548-582): fatal only when no plan exists, otherwise joins the
parts. -/
def compile_enhanced_final_report (plan : Option ReportPlan)
    (completed : List ReportSection) : EnhancedCompileResult :=
  match plan with
  | none => .failure "报告生成失败：缺少报告计划"
  | some p => .success (String.intercalate "\n\n" (enhancedReportParts p completed))

/-- The update returned by `long_report_nodes.write_section_content`,
instrumented with whether the content Generator was invoked on the executed
path (`completed_sections` is the list the node returns, i.e. the entries
it contributes — never containing an already-completed name). -/
structure WriteSectionResult where
  current_section : Option ReportSection
  completed_sections : List ReportSection
  generatorCalled : Bool
deriving DecidableEq, Repr

/-- The fallback content `write_section_content` produces when the
Generator call raises (long_report_nodes.py line 425). -/
def writeSectionFallbackContent (sec : ReportSection) : String :=
  "# " ++ sec.name ++ "\n\n" ++ sec.description ++ "\n\n[内容生成失败，请稍后重试]"

/-- Embeds `long_report_nodes.write_section_content` (lines 333-448).
`genResult` is the Generator oracle: `some c` is a successful synthesis
returning `c`, `none` a raised exception. With no current section, or with
the current section's name already among the completed names, the node
skips without contributing a section and without calling the Generator. -/
def write_section_content (currentSection : Option ReportSection)
    (completed : List ReportSection) (genResult : Option String) : WriteSectionResult :=
  match currentSection with
  | none => { current_section := none, completed_sections := [], generatorCalled := false }
  | some sec =>
    if (completed.map (fun s => s.name)).contains sec.name then
      { current_section := none, completed_sections := [], generatorCalled := false }
    else
      let content :=
        match genResult with
        | some c => c
        | none => writeSectionFallbackContent sec
      { current_section := none
        completed_sections := [{ sec with content := content, completed := true }]
        generatorCalled := true }

/-- The update returned by
`enhanced_long_report_nodes.process_next_section`, instrumented with
whether a Generator call and a Retrieval (RAG/web search) call happened on
the executed path. -/
structure ProcessSectionResult where
  processing_complete : Bool
  completed_sections : List ReportSection
  generatorCalled : Bool
  retrievalCalled : Bool
deriving DecidableEq, Repr

/-- Embeds `enhanced_long_report_nodes.process_next_section`
(lines 260-345): the section to process is chosen purely by index
(`next_section_index` when present, else `current_section_index`); when the
index is in range the section is synthesized (research sections first run
query generation and retrieval) and appended to the completed list —
without consulting the completed names. `genContent` is the Generator
oracle for the produced section content. -/
def process_next_section (plan : Option ReportPlan) (nextSectionIndex : Option Nat)
    (currentSectionIndex : Nat) (completed : List ReportSection)
    (genContent : String) : ProcessSectionResult :=
  let idx := nextSectionIndex.getD currentSectionIndex
  match plan with
  | none =>
    { processing_complete := true, completed_sections := completed
      generatorCalled := false, retrievalCalled := false }
  | some p =>
    if h : idx < p.sections.length then
      let sec := p.sections.get ⟨idx, h⟩
      let done := { sec with content := genContent, completed := true }
      { processing_complete := false
        completed_sections := completed ++ [done]
        generatorCalled := true
        retrievalCalled := sec.requires_research }
    else
      { processing_complete := true, completed_sections := completed
        generatorCalled := false, retrievalCalled := false }

/-- Outcome of the structured parse in
`long_report_nodes.generate_section_queries`: the `queries` list of the
parsed JSON, or a raised exception. -/
inductive SectionQueryParse
  | parsed (queries : List String)
  | failed
deriving Repr

/-- The candidate-deduplication loop of `generate_section_queries`
(lines 273-279): keep a candidate when its lowercased-stripped form is new
and longer than 5 characters. -/
def dedupSectionQueries (seen : List String) : List String → List String
  | [] => []
  | q :: rest =>
    let ql := pyNorm q
    if !(seen.contains ql) && ql.length > 5 then
      q :: dedupSectionQueries (ql :: seen) rest
    else
      dedupSectionQueries seen rest

/-- The executed-query filter loop of `generate_section_queries`
(lines 291-297): a candidate is issued only when its normalized form is not
yet in the executed set, and its normalized form is then added. Returns the
issued queries and the updated executed set (set order is immaterial; the
model conses new keys). -/
def filterExecutedQueries (executed : List String) :
    List String → List String × List String
  | [] => ([], executed)
  | q :: rest =>
    if executed.contains (pyNorm q) then filterExecutedQueries executed rest
    else
      ((q :: (filterExecutedQueries (pyNorm q :: executed) rest).1),
        (filterExecutedQueries (pyNorm q :: executed) rest).2)

/-- The update returned by `generate_section_queries`: the queries to
search, and — only on the structured-parse path — the updated
executed-query set (`none` models an update that leaves the state's
`executed_queries` untouched). -/
structure SectionQueriesResult where
  search_query : List String
  executed_queries : Option (List String)
deriving DecidableEq, Repr

/-- Embeds `long_report_nodes.generate_section_queries` (lines 221-330)
from the Generator response onward. On the structured-parse path the
candidates are deduplicated, truncated to 2, filtered against the
report-wide executed set (with a single fallback query, filtered by its
lowercased form); on the parse-exception path the fallback query
`name + " " + description` is returned without consulting or updating the
executed set. -/
def generate_section_queries (currentSection : Option ReportSection)
    (outcome : SectionQueryParse) (executedQueries : List String) : SectionQueriesResult :=
  match currentSection with
  | none => { search_query := [], executed_queries := none }
  | some sec =>
    if !sec.requires_research then { search_query := [], executed_queries := none }
    else
      match outcome with
      | .failed =>
        { search_query := [sec.name ++ " " ++ sec.description], executed_queries := none }
      | .parsed queries =>
        let uniqueQueries := (dedupSectionQueries [] queries).take 2
        let res := filterExecutedQueries executedQueries uniqueQueries
        let finalQueries := res.1
        let executed := res.2
        if finalQueries = [] then
          let fbq := sec.name ++ "相关研究资料"
          if !(executed.contains (pyLower fbq)) then
            { search_query := [fbq], executed_queries := some (pyLower fbq :: executed) }
          else
            { search_query := [], executed_queries := some executed }
        else
          { search_query := finalQueries, executed_queries := some executed }

lemma evaluate_research_adversarial (c m : Int) :
    evaluate_research ⟨some false, some c, some m⟩ 0 =
      if m ≤ c then "finalize_answer" else "continue_research" := by
  simp [evaluate_research]

lemma researchLoopRun_reaches (maxLoops : Int) :
    ∀ (fuel : Nat) (count : Int), count < maxLoops → maxLoops ≤ count + fuel →
      researchLoopRun maxLoops fuel count = maxLoops := by
  intro fuel
  induction fuel with
  | zero =>
    intro count h1 h2
    exfalso
    simp at h2
    omega
  | succ n ih =>
    intro count h1 h2
    unfold researchLoopRun
    rw [evaluate_research_adversarial]
    by_cases hge : maxLoops ≤ count + 1
    · have heq : count + 1 = maxLoops := by omega
      simp [hge, heq]
    · have hne : maxLoops > count + 1 := by omega
      simp only [if_neg hge]
      have : ("continue_research" : String) ≠ "finalize_answer" := by decide
      rw [if_neg this]
      exact ih (count + 1) (by omega) (by push_cast at h2 ⊢; omega)

/-- C1: `evaluate_research` routes to `finalize_answer` exactly when the
reflection verdict is sufficient or the research loop counter has reached
the effective `max_research_loops` ceiling (the state's value when present,
else the configuration's); consequently, against an adversarial Generator
that always reports insufficient, the outer loop reaches `finalize_answer`
with the counter exactly at the ceiling, never beyond it. -/
theorem C1_evaluate_research_governor :
    (∀ (st : EvalResearchState) (cfg : Int),
      evaluate_research st cfg = "finalize_answer" ↔
        (st.is_sufficient.getD false = true ∨
          st.max_research_loops.getD cfg ≤ st.research_loop_count.getD 0)) ∧
    (∀ (maxLoops : Int) (fuel : Nat), 1 ≤ maxLoops → maxLoops ≤ (fuel : Int) →
      researchLoopRun maxLoops fuel 0 = maxLoops) := by
  constructor
  · intro st cfg
    cases hm : st.max_research_loops with
    | none =>
      by_cases hs : st.is_sufficient.getD false = true <;>
        simp [evaluate_research, hm, hs]
    | some v =>
      by_cases hs : st.is_sufficient.getD false = true <;>
        simp [evaluate_research, hm, hs]
  · intro maxLoops fuel h1 h2
    exact researchLoopRun_reaches maxLoops fuel 0 (by omega) (by omega)

/-- Closed witness for C1 at a concrete reflection state and at the default
ceiling 2: both hypotheses of the loop clause are discharged at
`maxLoops = 2`, `fuel = 5`. -/
theorem C1_evaluate_research_governor_witness :
    (evaluate_research ⟨some false, some 2, some 2⟩ 0 = "finalize_answer") ∧
    researchLoopRun 2 5 0 = 2 := by
  refine ⟨?_, C1_evaluate_research_governor.2 2 5 (by decide) (by decide)⟩
  exact (C1_evaluate_research_governor.1 ⟨some false, some 2, some 2⟩ 0).mpr (by simp)

/-- C2: the section research sub-loop's router never continues once one
extra research iteration has happened: with `section_research_count ≥ 1`,
`evaluate_section_research` cannot return `continue_section_research`, so
each section gets at most one extra research iteration — a ceiling strictly
below the outer loop's and independent of it. -/
theorem C2_section_research_ceiling (st : SectionEvalState)
    (h : 1 ≤ st.section_research_count.getD 0) :
    evaluate_section_research st ≠ "continue_section_research" := by
  unfold evaluate_section_research
  cases hc : st.current_section with
  | none => simp
  | some sec =>
    have hcount : decide (st.section_research_count.getD 0 ≥ 1) = true :=
      decide_eq_true (by omega)
    simp [hcount]

/-- Closed witness for C2: a state that is mid-sub-loop (insufficient
verdict, pending follow-ups, generous configured ceiling) but whose counter
is already 1 is still routed away from `continue_section_research`. -/
theorem C2_section_research_ceiling_witness :
    1 ≤ (SectionEvalState.section_research_count
        ⟨some false, some ["后续查询"],
          some { name := "引言", description := "介绍研究背景和目标",
                 requires_research := true },
          some 1, some 5⟩).getD 0 ∧
    evaluate_section_research
        ⟨some false, some ["后续查询"],
          some { name := "引言", description := "介绍研究背景和目标",
                 requires_research := true },
          some 1, some 5⟩ ≠ "continue_section_research" :=
  ⟨by decide, C2_section_research_ceiling _ (by decide)⟩

/-- C4 counterexample: at the default request of 10000 words, the base
planner's parse-failure fallback sections target 1666+2500+3333+1666 = 9165
words, not 10000 — the claimed exact sum fails at a concrete positive
target. -/
theorem C4_fallback_sum_counterexample :
    planSectionTargetSum (fallbackReportPlan "人工智能" 10000) = 9165 ∧
    planSectionTargetSum (fallbackReportPlan "人工智能" 10000) ≠ 10000 := by
  constructor <;> decide

/-- C4 amended: on parse failure the enhanced planner's fallback section
targets (20% + 30% + 35% + 15%) sum exactly to the requested target
whenever the positive target is a multiple of 100, while the base planner's
fallback targets (1/6 + 1/4 + 1/3 + 1/6, floored) always sum to strictly
less than the target. -/
theorem C4_fallback_sum_amended (topic : String) (t : Nat) (h : 0 < t) :
    planSectionTargetSum (fallbackReportPlan topic t) < t ∧
    (100 ∣ t → planSectionTargetSum (enhancedFallbackReportPlan topic t) = t) := by
  constructor
  · simp [planSectionTargetSum, fallbackReportPlan]
    omega
  · intro hd
    simp [planSectionTargetSum, enhancedFallbackReportPlan]
    omega

/-- Closed witness for C4 at the default 10000-word target. -/
theorem C4_fallback_sum_amended_witness :
    0 < 10000 ∧
    (planSectionTargetSum (fallbackReportPlan "人工智能" 10000) < 10000 ∧
      (100 ∣ 10000 →
        planSectionTargetSum (enhancedFallbackReportPlan "人工智能" 10000) = 10000)) :=
  ⟨by decide, C4_fallback_sum_amended "人工智能" 10000 (by decide)⟩

/-- C7: whatever the Generator returned (a structured response with or
without a usable query field, a free-text response parsed line by line, or
an unparseable one), `generate_query` issues at least one query as long as
the configured initial query count is positive, and when the structured and
heuristic extraction both produce nothing the research topic itself is the
query. -/
theorem C7_generate_query_nonempty (outcome : QueryParseOutcome)
    (contentLines : List String) (researchTopic : String) (count : Nat)
    (h : 1 ≤ count) :
    1 ≤ (generate_query outcome contentLines researchTopic count).length ∧
    (extractQueries outcome contentLines = [] →
      generate_query outcome contentLines researchTopic count = [researchTopic]) := by
  unfold generate_query
  by_cases he : extractQueries outcome contentLines = []
  · simp only [he, if_pos rfl]
    constructor
    · cases count with
      | zero => omega
      | succ n => simp [List.take]
    · intro _
      cases count with
      | zero => omega
      | succ n => simp [List.take]
  · simp only [if_neg he]
    refine ⟨?_, fun habs => absurd habs he⟩
    rw [List.length_take]
    have : 0 < (extractQueries outcome contentLines).length :=
      List.length_pos.mpr he
    omega

/-- Closed witness for C7: an unparseable Generator response whose line
parser finds nothing (a lone JSON brace) still yields one query — the
research topic. -/
theorem C7_generate_query_nonempty_witness :
    1 ≤ 3 ∧
    (1 ≤ (generate_query .parseFailed ["\x7b"] "General research topic" 3).length ∧
      (extractQueries .parseFailed ["\x7b"] = [] →
        generate_query .parseFailed ["\x7b"] "General research topic" 3 =
          ["General research topic"])) :=
  ⟨by decide, C7_generate_query_nonempty .parseFailed ["\x7b"] "General research topic" 3 (by decide)⟩

/-- C8: after RAG retrieval the controller performs a web retrieval attempt
before reflecting exactly when the RAG step returned zero documents and the
RAG-to-web fallback is enabled; with documents present, or with fallback
disabled, it proceeds directly to reflection. -/
theorem C8_rag_fallback_routing (ragDocuments : List String) (enableFallback : Bool) :
    (rag_fallback_to_web ragDocuments enableFallback = "web_research" ↔
      (ragDocuments = [] ∧ enableFallback = true)) ∧
    (rag_fallback_to_web ragDocuments enableFallback = "reflection" ↔
      ¬(ragDocuments = [] ∧ enableFallback = true)) := by
  cases ragDocuments <;> cases enableFallback <;> simp [rag_fallback_to_web]

/-- C10: a word-count indicator substring in the latest user message is by
itself enough for the request classifier to flag a long report — no
long-report keyword is needed. -/
theorem C10_word_count_triggers_long_report (messages : List String) (content : String)
    (hlast : messages.getLast? = some content)
    (hind : ∃ ind ∈ word_count_indicators, pyInStr ind content = true) :
    detect_long_report_is_long messages = true := by
  unfold detect_long_report_is_long
  rw [hlast]
  obtain ⟨ind, hmem, hin⟩ := hind
  have hany : word_count_indicators.any (fun i => pyInStr i content) = true :=
    List.any_eq_true.mpr ⟨ind, hmem, hin⟩
  simp [hany]

/-- Closed witness for C10: a message carrying only the indicator `千字`
(and none of the long-report keywords) is classified as a long-report
request. -/
theorem C10_word_count_triggers_long_report_witness :
    (["请帮我写一篇约3千字的产品介绍"].getLast? = some "请帮我写一篇约3千字的产品介绍") ∧
    (∃ ind ∈ word_count_indicators, pyInStr ind "请帮我写一篇约3千字的产品介绍" = true) ∧
    detect_long_report_is_long ["请帮我写一篇约3千字的产品介绍"] = true :=
  ⟨by decide, ⟨"千字", by decide, by decide⟩,
    C10_word_count_triggers_long_report ["请帮我写一篇约3千字的产品介绍"]
      "请帮我写一篇约3千字的产品介绍" (by decide) ⟨"千字", by decide, by decide⟩⟩

/-- C6 counterexample: a state with a report plan but an empty completed
list makes the base compiler return the explicit failure message — so
compilation failure is not equivalent to the absence of a plan. -/
theorem C6_compile_failure_counterexample :
    compile_final_long_report
        (some { title := "研究报告", abstract := "摘要",
                sections := [{ name := "核心分析", description := "主要内容分析",
                               requires_research := true }],
                total_word_count_target := 10000 }) [] =
      .failure "报告生成失败：缺少必要信息" := by
  decide

/-- C6 amended: the base compiler fails exactly when the plan is missing or
no section was completed, and the enhanced compiler fails exactly when the
plan is missing; in both cases the failure is an explicit message carrying
no report text. -/
theorem C6_compile_failure_amended :
    (∀ (plan : Option ReportPlan) (completed : List ReportSection),
      (∃ msg, compile_final_long_report plan completed = .failure msg) ↔
        (plan = none ∨ completed = [])) ∧
    (∀ (plan : Option ReportPlan) (completed : List ReportSection),
      (∃ msg, compile_enhanced_final_report plan completed = .failure msg) ↔
        plan = none) := by
  constructor
  · intro plan completed
    cases plan with
    | none => simp [compile_final_long_report]
    | some p =>
      cases completed with
      | nil => simp [compile_final_long_report]
      | cons c cs => simp [compile_final_long_report]
  · intro plan completed
    cases plan with
    | none => simp [compile_enhanced_final_report]
    | some p => simp [compile_enhanced_final_report]

lemma string_toList_append (a b : String) : (a ++ b).toList = a.toList ++ b.toList :=
  String.data_append a b

lemma sectionBlocks_length (completed : List ReportSection) :
    ∀ (secs : List ReportSection) (i : Nat),
      (sectionBlocks completed i secs).length = secs.length := by
  intro secs
  induction secs with
  | nil => intro i; simp [sectionBlocks]
  | cons s rest ih => intro i; simp [sectionBlocks, ih]

lemma sectionBlocks_getD (completed : List ReportSection) :
    ∀ (secs : List ReportSection) (i k : Nat) (hk : k < secs.length),
      (sectionBlocks completed i secs).getD k "" =
        sectionBlock completed (i + k) (secs.get ⟨k, hk⟩) := by
  intro secs
  induction secs with
  | nil => intro i k hk; simp at hk
  | cons s rest ih =>
    intro i k hk
    cases k with
    | zero => simp [sectionBlocks]
    | succ n =>
      have hn : n < rest.length := by simpa using hk
      have harith : i + (n + 1) = (i + 1) + n := by omega
      simp only [sectionBlocks, List.getD_cons_succ, List.get_cons_succ, harith]
      exact ih (i + 1) n hn

lemma sectionBlock_mentions_name (completed : List ReportSection) (i : Nat)
    (sec : ReportSection) :
    sec.name.toList <:+: (sectionBlock completed i sec).toList := by
  unfold sectionBlock
  refine ⟨("## " ++ toString i ++ ". ").toList,
    ("\n\n" ++ ((sectionContentLookup completed sec.name).getD
      ("[" ++ sec.name ++ "章节内容缺失]")) ++ "\n").toList, ?_⟩
  simp [string_toList_append, List.append_assoc]

lemma sectionBlock_mentions_placeholder (completed : List ReportSection) (i : Nat)
    (sec : ReportSection) (h : sectionContentLookup completed sec.name = none) :
    ("[" ++ sec.name ++ "章节内容缺失]").toList <:+:
      (sectionBlock completed i sec).toList := by
  unfold sectionBlock
  rw [h]
  refine ⟨("## " ++ toString i ++ ". " ++ sec.name ++ "\n\n").toList, "\n".toList, ?_⟩
  simp [string_toList_append, List.append_assoc]

/-- C3 amended: for any plan and any non-empty completed list, the base
compiler succeeds and its report carries exactly `len(plan.sections)`
numbered section blocks in plan order — the k-th block names the k-th
planned section, and a planned section missing from the completed list gets
the explicit placeholder naming it. (The enhanced compiler and the
empty-completed-list case violate the original claim; see the
counterexample.) -/
theorem C3_compile_plan_order_blocks (plan : ReportPlan)
    (completed : List ReportSection) (h : completed ≠ []) :
    (∃ wc, compile_final_long_report (some plan) completed =
      .success (String.intercalate "\n" (compileLongReportParts plan completed)) wc) ∧
    (sectionBlocks completed 1 plan.sections).length = plan.sections.length ∧
    (∀ k (hk : k < plan.sections.length),
      (plan.sections.get ⟨k, hk⟩).name.toList <:+:
        ((sectionBlocks completed 1 plan.sections).getD k "").toList ∧
      (sectionContentLookup completed (plan.sections.get ⟨k, hk⟩).name = none →
        ("[" ++ (plan.sections.get ⟨k, hk⟩).name ++ "章节内容缺失]").toList <:+:
          ((sectionBlocks completed 1 plan.sections).getD k "").toList)) := by
  have hie : completed.isEmpty = false := by
    cases completed with
    | nil => exact absurd rfl h
    | cons a l => rfl
  refine ⟨?_, sectionBlocks_length completed plan.sections 1, ?_⟩
  · unfold compile_final_long_report
    rw [hie]
    exact ⟨_, rfl⟩
  · intro k hk
    rw [sectionBlocks_getD completed plan.sections 1 k hk]
    exact ⟨sectionBlock_mentions_name completed (1 + k) (plan.sections.get ⟨k, hk⟩),
      fun hn => sectionBlock_mentions_placeholder completed (1 + k)
        (plan.sections.get ⟨k, hk⟩) hn⟩

/-- C3 counterexample: the enhanced compiler, with a one-section plan and an
empty completed list, emits a report with zero section content blocks — the
planned section's name appears nowhere, so the missing section is silently
omitted rather than shown as a placeholder. -/
theorem C3_compile_blocks_counterexample :
    compile_enhanced_final_report
        (some { title := "研究报告", abstract := "摘要",
                sections := [{ name := "核心分析", description := "主要内容分析",
                               requires_research := true }],
                total_word_count_target := 10000 }) [] =
      .success "# 研究报告\n\n\n## 摘要\n摘要\n" ∧
    pyInStr "核心分析" "# 研究报告\n\n\n## 摘要\n摘要\n" = false := by
  constructor <;> decide

/-- Closed witness for C3 at a two-section plan whose second section was
never completed: the compiler emits two blocks and the second carries the
placeholder naming the missing section. -/
theorem C3_compile_plan_order_blocks_witness :
    ([({ name := "引言", description := "介绍", requires_research := true,
         content := "引言的内容", word_count_target := 1000, completed := true } :
        ReportSection)] ≠ []) ∧
    (sectionBlocks
        [{ name := "引言", description := "介绍", requires_research := true,
           content := "引言的内容", word_count_target := 1000, completed := true }] 1
        [{ name := "引言", description := "介绍", requires_research := true },
         { name := "结论", description := "总结和建议", requires_research := false }]).length = 2 ∧
    ("[" ++ "结论" ++ "章节内容缺失]").toList <:+:
      ((sectionBlocks
          [{ name := "引言", description := "介绍", requires_research := true,
             content := "引言的内容", word_count_target := 1000, completed := true }] 1
          [{ name := "引言", description := "介绍", requires_research := true },
           { name := "结论", description := "总结和建议", requires_research := false }]).getD 1 "").toList :=
  ⟨by decide,
    (C3_compile_plan_order_blocks
      { title := "研究报告", abstract := "摘要",
        sections := [{ name := "引言", description := "介绍", requires_research := true },
                     { name := "结论", description := "总结和建议", requires_research := false }],
        total_word_count_target := 10000 }
      [{ name := "引言", description := "介绍", requires_research := true,
         content := "引言的内容", word_count_target := 1000, completed := true }]
      (by decide)).2.1,
    ((C3_compile_plan_order_blocks
      { title := "研究报告", abstract := "摘要",
        sections := [{ name := "引言", description := "介绍", requires_research := true },
                     { name := "结论", description := "总结和建议", requires_research := false }],
        total_word_count_target := 10000 }
      [{ name := "引言", description := "介绍", requires_research := true,
         content := "引言的内容", word_count_target := 1000, completed := true }]
      (by decide)).2.2 1 (by decide)).2 (by decide)⟩

/-- C5 amended: the base section-content step (`write_section_content`) is
idempotent on completed sections — when the current section's name is
already among the completed names it contributes no section (so no
duplicate entry) and invokes no Generator or Retrieval. (The enhanced
`process_next_section` violates the original claim; see the
counterexample.) -/
theorem C5_write_section_idempotent (sec : ReportSection)
    (completed : List ReportSection) (genResult : Option String)
    (h : sec.name ∈ completed.map (fun s => s.name)) :
    write_section_content (some sec) completed genResult =
      { current_section := none, completed_sections := [], generatorCalled := false } := by
  obtain ⟨x, hx, hxn⟩ := List.mem_map.mp h
  simp only [write_section_content]
  rw [if_pos]
  · exact List.contains_iff_exists_mem_beq.mpr
      ⟨sec.name, by simpa [hxn] using List.mem_map_of_mem (fun s => s.name) hx, by simp⟩

/-- Closed witness for C5: re-submitting the already-completed section named
`引言` contributes nothing and calls no Generator. -/
theorem C5_write_section_idempotent_witness :
    ("引言" : String) ∈
      ([{ name := "引言", description := "介绍", requires_research := true,
          content := "引言的内容", word_count_target := 1000, completed := true }] :
        List ReportSection).map (fun s => s.name) ∧
    write_section_content
        (some { name := "引言", description := "介绍", requires_research := true })
        [{ name := "引言", description := "介绍", requires_research := true,
           content := "引言的内容", word_count_target := 1000, completed := true }]
        (some "新的内容") =
      { current_section := none, completed_sections := [], generatorCalled := false } :=
  ⟨by decide,
    C5_write_section_idempotent
      { name := "引言", description := "介绍", requires_research := true }
      [{ name := "引言", description := "介绍", requires_research := true,
         content := "引言的内容", word_count_target := 1000, completed := true }]
      (some "新的内容") (by decide)⟩

/-- C5 counterexample: the enhanced section step `process_next_section`
selects purely by index, so invoking it on a state whose indexed section is
already in the completed list re-processes it — the Generator is called
again and the completed list ends with the same name twice. -/
theorem C5_process_next_section_counterexample :
    (let r := process_next_section
        (some { title := "报告", abstract := "摘要",
                sections := [{ name := "引言", description := "介绍",
                               requires_research := false }],
                total_word_count_target := 1000 })
        none 0
        [{ name := "引言", description := "介绍", requires_research := false,
           content := "旧的内容", word_count_target := 1000, completed := true }]
        "新的内容"
    r.completed_sections.map (fun s => s.name) = ["引言", "引言"] ∧
      r.generatorCalled = true) := by
  decide

lemma filterExecutedQueries_spec (qs : List String) : ∀ (ex : List String),
    (∀ e ∈ ex, e ∈ (filterExecutedQueries ex qs).2) ∧
    (∀ q ∈ (filterExecutedQueries ex qs).1,
      pyNorm q ∉ ex ∧ pyNorm q ∈ (filterExecutedQueries ex qs).2) ∧
    ((filterExecutedQueries ex qs).1.map pyNorm).Nodup := by
  induction qs with
  | nil =>
    intro ex
    refine ⟨fun e he => ?_, fun q hq => ?_, ?_⟩ <;>
      simp [filterExecutedQueries] at *
    exact he
  | cons q rest ih =>
    intro ex
    by_cases hc : ex.contains (pyNorm q)
    · have hred : filterExecutedQueries ex (q :: rest) = filterExecutedQueries ex rest := by
        simp only [filterExecutedQueries]
        rw [if_pos hc]
      rw [hred]
      exact ih ex
    · have hred : filterExecutedQueries ex (q :: rest) =
          ((q :: (filterExecutedQueries (pyNorm q :: ex) rest).1),
            (filterExecutedQueries (pyNorm q :: ex) rest).2) := by
        simp only [filterExecutedQueries]
        rw [if_neg hc]
      rw [hred]
      obtain ⟨h1, h2, h3⟩ := ih (pyNorm q :: ex)
      have hnotmem : pyNorm q ∉ ex := by
        intro habs
        exact hc (by simpa using habs)
      refine ⟨?_, ?_, ?_⟩
      · intro e he
        exact h1 e (List.mem_cons_of_mem _ he)
      · intro p hp
        rcases List.mem_cons.mp hp with heq | htail
        · subst heq
          exact ⟨hnotmem, h1 (pyNorm p) (List.mem_cons_self _ _)⟩
        · obtain ⟨hni, hmem⟩ := h2 p htail
          exact ⟨fun habs => hni (List.mem_cons_of_mem _ habs), hmem⟩
      · rw [List.map_cons]
        refine List.nodup_cons.mpr ⟨?_, h3⟩
        intro habs
        obtain ⟨p, hp, hpe⟩ := List.mem_map.mp habs
        obtain ⟨hni, _⟩ := h2 p hp
        exact hni (hpe ▸ List.mem_cons_self _ _)

lemma generate_section_queries_parsed (nm ds ct : String) (wt : Nat) (cp : Bool)
    (queries executed : List String) :
    generate_section_queries
        (some { name := nm, description := ds, requires_research := true,
                content := ct, word_count_target := wt, completed := cp })
        (.parsed queries) executed =
      (if (filterExecutedQueries executed ((dedupSectionQueries [] queries).take 2)).1 = [] then
        (if !((filterExecutedQueries executed
              ((dedupSectionQueries [] queries).take 2)).2.contains
                (pyLower (nm ++ "相关研究资料"))) then
          { search_query := [nm ++ "相关研究资料"],
            executed_queries := some (pyLower (nm ++ "相关研究资料") ::
              (filterExecutedQueries executed ((dedupSectionQueries [] queries).take 2)).2) }
        else
          { search_query := [],
            executed_queries :=
              some (filterExecutedQueries executed ((dedupSectionQueries [] queries).take 2)).2 })
      else
        { search_query := (filterExecutedQueries executed ((dedupSectionQueries [] queries).take 2)).1,
          executed_queries :=
            some (filterExecutedQueries executed ((dedupSectionQueries [] queries).take 2)).2 }) :=
  rfl

/-- C9 amended: only the structured-parse path of the base
`generate_section_queries` consults the report-wide executed set, and what
it guarantees, unconditionally, is keyed per query kind: every issued
candidate query's lowercased-stripped form is absent from the incoming
executed set and recorded in the returned set, while the single fallback
query `name + "相关研究资料"` is checked and recorded by its lowercased
(but not stripped) form only; the incoming set is always preserved and no
two issued queries share a lowercased-stripped form. (For section names
with surrounding whitespace the fallback key differs from the normalized
form, and the parse-failure path and the enhanced per-section query
generator bypass the set entirely; see the counterexample.) -/
theorem C9_executed_query_dedup (sec : ReportSection) (queries executed : List String)
    (hr : sec.requires_research = true) :
    ∃ ex2,
      (generate_section_queries (some sec) (.parsed queries) executed).executed_queries =
        some ex2 ∧
      (∀ e ∈ executed, e ∈ ex2) ∧
      (∀ q ∈ (generate_section_queries (some sec) (.parsed queries) executed).search_query,
        (pyNorm q ∉ executed ∧ pyNorm q ∈ ex2) ∨
        (q = sec.name ++ "相关研究资料" ∧ pyLower q ∉ executed ∧ pyLower q ∈ ex2)) ∧
      ((generate_section_queries (some sec) (.parsed queries) executed).search_query.map
        pyNorm).Nodup := by
  obtain ⟨nm, ds, rr, ct, wt, cp⟩ := sec
  replace hr : rr = true := hr
  subst hr
  obtain ⟨h1, h2, h3⟩ :=
    filterExecutedQueries_spec ((dedupSectionQueries [] queries).take 2) executed
  rw [generate_section_queries_parsed]
  by_cases hfq :
      (filterExecutedQueries executed ((dedupSectionQueries [] queries).take 2)).1 = []
  · rw [if_pos hfq]
    cases hfb : (filterExecutedQueries executed
        ((dedupSectionQueries [] queries).take 2)).2.contains
          (pyLower (nm ++ "相关研究资料")) with
    | false =>
      simp only [Bool.not_false, if_true]
      refine ⟨_, rfl, ?_, ?_, by simp⟩
      · intro e he
        exact List.mem_cons_of_mem _ (h1 e he)
      · intro q hq
        have hq2 : q = nm ++ "相关研究资料" := by simpa using hq
        subst hq2
        refine Or.inr ⟨rfl, ?_, List.mem_cons_self _ _⟩
        intro habs
        have hmem : pyLower (nm ++ "相关研究资料") ∈
            (filterExecutedQueries executed ((dedupSectionQueries [] queries).take 2)).2 :=
          h1 _ habs
        have hct : (filterExecutedQueries executed
            ((dedupSectionQueries [] queries).take 2)).2.contains
              (pyLower (nm ++ "相关研究资料")) = true :=
          List.contains_iff_exists_mem_beq.mpr ⟨_, hmem, by simp⟩
        rw [hfb] at hct
        exact Bool.false_ne_true hct
    | true =>
      simp only [Bool.not_true, if_false]
      exact ⟨_, rfl, h1, by simp, by simp⟩
  · rw [if_neg hfq]
    exact ⟨_, rfl, h1, fun q hq => Or.inl (h2 q hq), h3⟩

/-- Closed witness for C9: a research section, one fresh candidate query and
an empty executed set; the candidate is issued and recorded. -/
theorem C9_executed_query_dedup_witness :
    (ReportSection.requires_research
        { name := "核心分析", description := "主要内容分析", requires_research := true } = true) ∧
    (∃ ex2,
      (generate_section_queries
          (some { name := "核心分析", description := "主要内容分析", requires_research := true })
          (.parsed ["deep learning applications"]) []).executed_queries = some ex2 ∧
      (∀ e ∈ ([] : List String), e ∈ ex2) ∧
      (∀ q ∈ (generate_section_queries
          (some { name := "核心分析", description := "主要内容分析", requires_research := true })
          (.parsed ["deep learning applications"]) []).search_query,
        (pyNorm q ∉ ([] : List String) ∧ pyNorm q ∈ ex2) ∨
        (q = ReportSection.name
            { name := "核心分析", description := "主要内容分析", requires_research := true } ++
            "相关研究资料" ∧
          pyLower q ∉ ([] : List String) ∧ pyLower q ∈ ex2)) ∧
      ((generate_section_queries
          (some { name := "核心分析", description := "主要内容分析", requires_research := true })
          (.parsed ["deep learning applications"]) []).search_query.map pyNorm).Nodup) :=
  ⟨by decide,
    C9_executed_query_dedup
      { name := "核心分析", description := "主要内容分析", requires_research := true }
      ["deep learning applications"] [] (by decide)⟩

/-- C9 counterexample: on the parse-exception path the base
`generate_section_queries` issues the fallback query `name + " " +
description` even though its normalized form is already in the report-wide
executed set, and returns no executed-set update — so a normalized query
string can be issued twice within one report's lifetime. -/
theorem C9_executed_query_dedup_counterexample :
    generate_section_queries
        (some { name := "引言", description := "介绍研究背景和目标", requires_research := true })
        .failed [pyNorm "引言 介绍研究背景和目标"] =
      { search_query := ["引言 介绍研究背景和目标"], executed_queries := none } ∧
    pyNorm "引言 介绍研究背景和目标" ∈ [pyNorm "引言 介绍研究背景和目标"] := by
  constructor
  · decide
  · exact List.mem_cons_self _ _
